import Mathlib

/-!
Shallow embedding of `src/app/app.py`, a single-file Flask to-do app.
The mutable global `tasks` list is modelled by explicit state passing:
a request handler maps (method, form field, store) to (store, response).
-/

namespace TodoApp

/-- The whitespace characters removed by Python `str.strip()`, i.e. the
characters for which CPython's `Py_UNICODE_ISSPACE` holds: `\x09`-`\x0d`,
`\x1c`-`\x1f`, space, `\x85` (NEL), `\xa0` (NBSP), and the Unicode space and
line/paragraph separators U+1680, U+2000-U+200A, U+2028, U+2029, U+202F,
U+205F, U+3000. -/
def isPySpace (c : Char) : Bool :=
  (0x09 ≤ c.toNat && c.toNat ≤ 0x0d) ||
  (0x1c ≤ c.toNat && c.toNat ≤ 0x1f) ||
  c.toNat == 0x20 || c.toNat == 0x85 || c.toNat == 0xa0 ||
  c.toNat == 0x1680 ||
  (0x2000 ≤ c.toNat && c.toNat ≤ 0x200a) ||
  c.toNat == 0x2028 || c.toNat == 0x2029 || c.toNat == 0x202f ||
  c.toNat == 0x205f || c.toNat == 0x3000

/-- Python `s.strip()`: remove leading and trailing whitespace. -/
def pyStrip (s : String) : String :=
  ⟨((s.data.dropWhile isPySpace).reverse.dropWhile isPySpace).reverse⟩

/-- `app.py` line 9: the global task list with its three seed values. -/
def tasks : List String :=
  ["Learn Docker", "Build a Web App", "Containerize the App"]

/-- The literal fragment of the per-task `<li>` f-string before `{i+1}`. -/
def liOpen : String :=
  "\n            <li class=\"flex items-center justify-between bg-white p-3 rounded-lg shadow mb-2 transition duration-150 ease-in-out hover:bg-gray-50\">\n                <span class=\"text-gray-800 text-lg font-medium\">"

/-- The literal fragment of the per-task `<li>` f-string after `{task}`. -/
def liClose : String :=
  "</span>\n                <span class=\"text-sm text-gray-400\">Added locally</span>\n            </li>\n            "

/-- One `<li>` entry for the task at 0-based position `i`
(`app.py` lines 18-23); the displayed number is `i+1`. -/
def liItem (i : Nat) (task : String) : String :=
  liOpen ++ (toString (i + 1) ++ ". " ++ task) ++ liClose

/-- The placeholder `<li>` rendered when the list is empty (`app.py` line 25). -/
def noTasksLi : String :=
  "<li class=\"text-center py-8 text-gray-500 italic\">No tasks yet! Add one above.</li>"

/-- The accumulation loop of `app.py` lines 17-23:
`for i, task in enumerate(tasks_list): task_items += ...`. -/
def taskItemsLoop : Nat → List String → String
  | _, [] => ""
  | i, task :: rest => liItem i task ++ taskItemsLoop (i + 1) rest

/-- `task_items` as computed by `app.py` lines 14-25: the concatenated
`<li>` entries when the list is non-empty, else the placeholder. -/
def task_items (tasks_list : List String) : String :=
  if tasks_list.isEmpty then noTasksLi else taskItemsLoop 0 tasks_list

/-- The document text of `app.py` lines 28-73 before the `{task_items}` hole. -/
def htmlHead : String :=
  "\n<!DOCTYPE html>\n<html lang=\"en\">\n<head>\n    <meta charset=\"UTF-8\">\n    <meta name=\"viewport\" content=\"width=device-width, initial-scale=1.0\">\n    <title>Simple Containerized To-Do App</title>\n    <!-- Load Tailwind CSS -->\n    <script src=\"https://cdn.tailwindcss.com\"></script>\n    <style>\n        body \x7b\n            font-family: \x27Inter\x27, sans-serif;\n            background-color: #f3f4f6;\n        \x7d\n    </style>\n</head>\n<body class=\"p-8\">\n    <div class=\"max-w-xl mx-auto bg-white p-8 rounded-xl shadow-2xl\">\n        <h1 class=\"text-4xl font-bold text-center mb-6 text-indigo-700\">Containerized To-Do List</h1>\n        <p class=\"text-center text-gray-500 mb-8\">A slightly more functional Flask app ready for Docker!</p>\n\n        <!-- Task Input Form -->\n        <form method=\"POST\" class=\"flex space-x-4 mb-10 p-4 border border-indigo-200 rounded-xl bg-indigo-50 shadow-inner\">\n            <input\n                type=\"text\"\n                name=\"new_task\"\n                placeholder=\"What needs to be done?\"\n                required\n                class=\"flex-grow p-3 border border-gray-300 rounded-lg focus:outline-none focus:ring-2 focus:ring-indigo-500\"\n            >\n            <button\n                type=\"submit\"\n                class=\"bg-indigo-600 hover:bg-indigo-700 text-white font-semibold py-3 px-6 rounded-lg shadow-md transition duration-300 ease-in-out transform hover:scale-105\"\n            >\n                Add Task\n            </button>\n        </form>\n\n        <!-- Task List Display -->\n        <ul id=\"task-list\" class=\"space-y-3\">\n            "

/-- The document text of `app.py` lines 28-73 after the `{task_items}` hole. -/
def htmlTail : String :=
  "\n        </ul>\n    </div>\n</body>\n</html>\n"

/-- `get_html_template` (`app.py` lines 12-73): the full HTML page with the
task entries spliced into the `<ul>`. -/
def get_html_template (tasks_list : List String) : String :=
  htmlHead ++ task_items tasks_list ++ htmlTail

/-- The two HTTP methods the route accepts (`app.py` line 75). -/
inductive Method
  | GET
  | POST
deriving DecidableEq

/-- The handler's possible responses: `redirect(url_for('todo_list'))`
or a rendered HTML page. -/
inductive Response
  | redirect (location : String)
  | page (html : String)
deriving DecidableEq

/-- The route handler `todo_list` (`app.py` lines 75-87).  The form field
`request.form.get('new_task')` is `Option String` (`none` when absent).
`if new_task:` is Python truthiness: present and not the empty string.
On POST the handler appends `new_task.strip()` when truthy and redirects
to `/` (= `url_for('todo_list')`); on GET it renders the page. -/
def todo_list (method : Method) (new_task : Option String) (st : List String) :
    List String × Response :=
  match method with
  | Method.POST =>
    let st' :=
      match new_task with
      | some s => if s = "" then st else st ++ [pyStrip s]
      | none => st
    (st', Response.redirect "/")
  | Method.GET => (st, Response.page (get_html_template st))

/-- One incoming HTTP request to the single route. -/
structure Request where
  method : Method
  new_task : Option String
deriving DecidableEq

/-- Handle a sequence of requests starting from store `st`, returning the
final store. -/
def runRequests (st : List String) : List Request → List String
  | [] => st
  | r :: rs => runRequests (todo_list r.method r.new_task st).1 rs

/-- Concatenation of a list of strings, in order. -/
def concatAll : List String → String
  | [] => ""
  | a :: l => a ++ concatAll l

lemma pyStrip_empty : pyStrip "" = "" := rfl

lemma dropWhile_head?_not (p : Char → Bool) :
    ∀ (l : List Char) (c : Char), (l.dropWhile p).head? = some c → p c = false := by
  intro l
  induction l with
  | nil => intro c h; simp [List.dropWhile] at h
  | cons a t ih =>
    intro c h
    rw [List.dropWhile_cons] at h
    by_cases hp : p a = true
    · rw [if_pos hp] at h
      exact ih c h
    · rw [if_neg hp] at h
      simp only [List.head?_cons, Option.some.injEq] at h
      subst h
      exact Bool.not_eq_true _ ▸ hp

lemma getLast?_dropWhile_eq (p : Char → Bool) :
    ∀ (l : List Char) (c : Char), (l.dropWhile p).getLast? = some c → l.getLast? = some c := by
  intro l
  induction l with
  | nil => intro c h; simp [List.dropWhile] at h
  | cons a t ih =>
    intro c h
    rw [List.dropWhile_cons] at h
    by_cases hp : p a = true
    · rw [if_pos hp] at h
      have ht := ih c h
      cases t with
      | nil => simp at ht
      | cons b t' => rw [List.getLast?_cons_cons]; exact ht
    · rw [if_neg hp] at h
      exact h

lemma pyStrip_head_not_space (s : String) (c : Char)
    (h : (pyStrip s).data.head? = some c) : isPySpace c = false := by
  have h1 : (((s.data.dropWhile isPySpace).reverse.dropWhile isPySpace).reverse).head?
      = some c := h
  rw [List.head?_reverse] at h1
  have h2 := getLast?_dropWhile_eq isPySpace _ c h1
  rw [List.getLast?_reverse] at h2
  exact dropWhile_head?_not isPySpace _ c h2

lemma pyStrip_getLast_not_space (s : String) (c : Char)
    (h : (pyStrip s).data.getLast? = some c) : isPySpace c = false := by
  have h1 : (((s.data.dropWhile isPySpace).reverse.dropWhile isPySpace).reverse).getLast?
      = some c := h
  rw [List.getLast?_reverse] at h1
  exact dropWhile_head?_not isPySpace _ c h1

lemma todo_list_post_nonempty (s : String) (st : List String) (h : s ≠ "") :
    (todo_list Method.POST (some s) st).1 = st ++ [pyStrip s] := by
  simp [todo_list, h]

lemma runRequests_posts :
    ∀ (subs : List String) (st : List String), (∀ s ∈ subs, s ≠ "") →
      runRequests st (subs.map fun s => ⟨Method.POST, some s⟩) = st ++ subs.map pyStrip := by
  intro subs
  induction subs with
  | nil => intro st _; simp [runRequests]
  | cons a t ih =>
    intro st h
    have ha : a ≠ "" := h a (by simp)
    simp only [List.map_cons, runRequests]
    rw [todo_list_post_nonempty a st ha,
      ih (st ++ [pyStrip a]) (fun s hs => h s (by simp [hs]))]
    simp

lemma taskItemsLoop_eq_concat :
    ∀ (l : List String) (n : Nat),
      taskItemsLoop n l = concatAll ((l.enumFrom n).map fun p => liItem p.1 p.2) := by
  intro l
  induction l with
  | nil => intro n; simp [taskItemsLoop, concatAll, List.enumFrom]
  | cons a t ih => intro n; simp [taskItemsLoop, concatAll, List.enumFrom, ih]

lemma numbering_infix_of_liItem (i : Nat) (t : String) :
    (toString (i + 1) ++ ". " ++ t).data <:+: (liItem i t).data :=
  ⟨liOpen.data, liClose.data, by simp [liItem, String.data_append]⟩

/-- Claim C1 counterexample: the field value `" "` is whitespace-only (empty
after trimming), yet the POST handler changes the Task Store — `if new_task:`
tests truthiness before stripping, so `" "` passes and `"".strip()` is
appended. -/
theorem submit_whitespace_changes_store :
    pyStrip " " = "" ∧
    (todo_list Method.POST (some " ") tasks).1 ≠ tasks ∧
    (todo_list Method.POST (some " ") tasks).1 = tasks ++ [""] := by
  refine ⟨by decide, by decide, by decide⟩

/-- Claim C1 (amended): a POST whose `new_task` field is absent or the empty
string leaves the Task Store unchanged; a field that is non-empty but empty
after trimming (whitespace-only) instead appends the empty string. -/
theorem submit_blank_field_noop (st : List String) (nt : Option String) :
    ((nt = none ∨ nt = some "") → (todo_list Method.POST nt st).1 = st) ∧
    (∀ s, nt = some s → s ≠ "" → pyStrip s = "" →
      (todo_list Method.POST nt st).1 = st ++ [""]) := by
  constructor
  · rintro (rfl | rfl) <;> simp [todo_list]
  · rintro s rfl hs hstrip
    rw [todo_list_post_nonempty s st hs, hstrip]

/-- Witness for `submit_blank_field_noop` at concrete inputs. -/
theorem submit_blank_field_noop_witness :
    (todo_list Method.POST (some "") tasks).1 = tasks ∧
    (todo_list Method.POST (some "\x0c") tasks).1 = tasks ++ [""] :=
  ⟨(submit_blank_field_noop tasks (some "")).1 (Or.inr rfl),
   (submit_blank_field_noop tasks (some "\x0c")).2 "\x0c" rfl (by decide) (by decide)⟩

/-- Claim C2: after N POSTs each carrying a value that is non-empty after
trimming, the store is the 3 seeds followed by the N trimmed values in
submission order; a GET renders the page whose `<ul>` holds one `<li>` per
item in that order, and the entry at 0-based position `p.1` displays the
1-based number `p.1 + 1` before the item text. -/
theorem submit_sequence_renders_in_order (subs : List String)
    (h : ∀ s ∈ subs, pyStrip s ≠ "") :
    runRequests tasks (subs.map fun s => ⟨Method.POST, some s⟩)
        = tasks ++ subs.map pyStrip ∧
    (todo_list Method.GET none (tasks ++ subs.map pyStrip)).2
        = Response.page (htmlHead
            ++ concatAll (((tasks ++ subs.map pyStrip).enumFrom 0).map
                fun p => liItem p.1 p.2)
            ++ htmlTail) ∧
    ∀ p ∈ (tasks ++ subs.map pyStrip).enumFrom 0,
      (toString (p.1 + 1) ++ ". " ++ p.2).data <:+: (liItem p.1 p.2).data := by
  have hne : ∀ s ∈ subs, s ≠ "" := by
    intro s hs he
    exact h s hs (he ▸ pyStrip_empty)
  refine ⟨runRequests_posts subs tasks hne, ?_, ?_⟩
  · have hempty : (tasks ++ subs.map pyStrip).isEmpty = false := by
      simp [tasks]
    simp only [todo_list, get_html_template, task_items, hempty, Bool.false_eq_true,
      if_false, taskItemsLoop_eq_concat]
  · intro p _
    exact numbering_infix_of_liItem p.1 p.2

/-- Witness for `submit_sequence_renders_in_order` at a concrete submission. -/
theorem submit_sequence_renders_in_order_witness :
    runRequests tasks (([" Write tests "]).map fun s => ⟨Method.POST, some s⟩)
      = tasks ++ ([" Write tests "]).map pyStrip :=
  (submit_sequence_renders_in_order [" Write tests "] (by decide)).1

/-- Claim C3: a submitted value that is non-empty after trimming is stored as
its trimmed form, and every value `pyStrip s` ever appended by the handler has
no leading and no trailing whitespace character. -/
theorem submitted_value_stored_trimmed (s : String) (st : List String)
    (h : pyStrip s ≠ "") :
    (todo_list Method.POST (some s) st).1 = st ++ [pyStrip s] ∧
    (∀ c, (pyStrip s).data.head? = some c → isPySpace c = false) ∧
    (∀ c, (pyStrip s).data.getLast? = some c → isPySpace c = false) := by
  have hs : s ≠ "" := fun he => h (he ▸ pyStrip_empty)
  exact ⟨todo_list_post_nonempty s st hs,
    fun c hc => pyStrip_head_not_space s c hc,
    fun c hc => pyStrip_getLast_not_space s c hc⟩

/-- Witness for `submitted_value_stored_trimmed` at a concrete input. -/
theorem submitted_value_stored_trimmed_witness :
    (todo_list Method.POST (some "  hi  ") tasks).1 = tasks ++ [pyStrip "  hi  "] :=
  (submitted_value_stored_trimmed "  hi  " tasks (by decide)).1

/-- Claim C4: every POST, whatever the `new_task` field holds, answers with a
redirect to the route `/` and never with a rendered page. -/
theorem post_always_redirects (nt : Option String) (st : List String) :
    (todo_list Method.POST nt st).2 = Response.redirect "/" ∧
    ∀ html : String, (todo_list Method.POST nt st).2 ≠ Response.page html := by
  cases nt with
  | none => exact ⟨rfl, fun html h => by simp [todo_list] at h⟩
  | some s => exact ⟨rfl, fun html h => by simp [todo_list] at h⟩

/-- Claim C5 counterexample: the handler can append the EMPTY string (on the
whitespace-only field `"\t"`), refuting "mutated only by appending a
trimmed, non-empty string". -/
theorem store_gains_empty_item :
    (todo_list Method.POST (some "\t") tasks).1 ≠ tasks ∧
    (todo_list Method.POST (some "\t") tasks).1 = tasks ++ [""] ∧
    ¬ ("" : String) ≠ "" := by
  refine ⟨by decide, by decide, fun h => h rfl⟩

/-- Claim C5 (amended): every request leaves the store unchanged or appends
exactly one item, the trim of the submitted non-empty field (the trim itself
may be empty); existing items keep value and position, and the rendered
entries follow store order (insertion order). -/
theorem store_append_only_invariant (m : Method) (nt : Option String)
    (st : List String) :
    ((todo_list m nt st).1 = st ∨
      ∃ s, nt = some s ∧ s ≠ "" ∧ (todo_list m nt st).1 = st ++ [pyStrip s]) ∧
    (todo_list m nt st).1.take st.length = st ∧
    task_items st = (if st.isEmpty then noTasksLi
      else concatAll ((st.enumFrom 0).map fun p => liItem p.1 p.2)) := by
  refine ⟨?_, ?_, ?_⟩
  · cases m with
    | GET => exact Or.inl rfl
    | POST =>
      cases nt with
      | none => exact Or.inl rfl
      | some s =>
        by_cases hs : s = ""
        · exact Or.inl (by simp [todo_list, hs])
        · exact Or.inr ⟨s, rfl, hs, todo_list_post_nonempty s st hs⟩
  · cases m with
    | GET => simp [todo_list]
    | POST =>
      cases nt with
      | none => simp [todo_list]
      | some s =>
        by_cases hs : s = "" <;>
          simp [todo_list, hs, List.take_left]
  · rw [task_items, taskItemsLoop_eq_concat]

/-- Claim C6: at process start the store holds exactly the three seed values,
in order. -/
theorem initial_store_is_seeds :
    tasks = ["Learn Docker", "Build a Web App", "Containerize the App"] ∧
    tasks.length = 3 :=
  ⟨rfl, rfl⟩

/-- Claim C7: on an empty store the page embeds the placeholder `<li>`, a
non-empty message, instead of the (empty) concatenation of list entries. -/
theorem empty_store_renders_placeholder :
    get_html_template [] = htmlHead ++ noTasksLi ++ htmlTail ∧
    task_items [] = noTasksLi ∧
    noTasksLi ≠ "" ∧
    taskItemsLoop 0 [] = "" := by
  refine ⟨rfl, rfl, by decide, rfl⟩

/-- Claim C8: a GET returns the store untouched together with the rendered
page; retrieval has no effect on the store. -/
theorem get_leaves_store_unchanged (nt : Option String) (st : List String) :
    (todo_list Method.GET nt st).1 = st ∧
    (todo_list Method.GET nt st).2 = Response.page (get_html_template st) :=
  ⟨rfl, rfl⟩

/-- Claim C9: a POST either leaves the store identical or appends exactly one
item at the end, and the first `st.length` items keep value and position. -/
theorem post_appends_at_most_one (nt : Option String) (st : List String) :
    ((todo_list Method.POST nt st).1 = st ∨
      ∃ x, (todo_list Method.POST nt st).1 = st ++ [x]) ∧
    (todo_list Method.POST nt st).1.take st.length = st := by
  constructor
  · cases nt with
    | none => exact Or.inl rfl
    | some s =>
      by_cases hs : s = ""
      · exact Or.inl (by simp [todo_list, hs])
      · exact Or.inr ⟨pyStrip s, todo_list_post_nonempty s st hs⟩
  · cases nt with
    | none => simp [todo_list]
    | some s =>
      by_cases hs : s = "" <;> simp [todo_list, hs, List.take_left]

/-- Claim C10: rendering is a pure function of the task list — equal lists
produce identical HTML documents. -/
theorem render_is_deterministic (l1 l2 : List String) (h : l1 = l2) :
    get_html_template l1 = get_html_template l2 := by
  rw [h]

/-- Witness for `render_is_deterministic` at a concrete list. -/
theorem render_is_deterministic_witness :
    get_html_template ["a"] = get_html_template ["a"] :=
  render_is_deterministic ["a"] ["a"] rfl

end TodoApp
